import Mathlib

/-!
Shallow embedding of the dataset-subset utilities
(`create_dataset_subset.py` and `verify_subset.py`).

Datasets are modelled as ordered lists of records over a named-field
schema; the external dataset store (`datasets.load_from_disk`, `select`,
`save_to_disk`, `os.path.exists`, `os.makedirs`) is modelled as an
explicit environment plus an effect trace; Python exceptions are
modelled with `Except`.
-/

/-- A Python value stored in a record field: string, int, float
(modelled exactly as a rational) or list. -/
inductive PyVal where
  | vStr : String → PyVal
  | vInt : Int → PyVal
  | vFloat : ℚ → PyVal
  | vList : List PyVal → PyVal
deriving Repr

mutual

def PyVal.deq : (a b : PyVal) → Decidable (a = b)
  | .vStr s, .vStr t =>
    match decEq s t with
    | isTrue h => isTrue (by rw [h])
    | isFalse h => isFalse (fun hh => h (PyVal.vStr.injEq s t ▸ hh))
  | .vInt m, .vInt n =>
    match decEq m n with
    | isTrue h => isTrue (by rw [h])
    | isFalse h => isFalse (fun hh => h (PyVal.vInt.injEq m n ▸ hh))
  | .vFloat p, .vFloat q =>
    match decEq p q with
    | isTrue h => isTrue (by rw [h])
    | isFalse h => isFalse (fun hh => h (PyVal.vFloat.injEq p q ▸ hh))
  | .vList xs, .vList ys =>
    match PyVal.deqList xs ys with
    | isTrue h => isTrue (by rw [h])
    | isFalse h => isFalse (fun hh => h (PyVal.vList.injEq xs ys ▸ hh))
  | .vStr _, .vInt _ => isFalse (fun h => PyVal.noConfusion h)
  | .vStr _, .vFloat _ => isFalse (fun h => PyVal.noConfusion h)
  | .vStr _, .vList _ => isFalse (fun h => PyVal.noConfusion h)
  | .vInt _, .vStr _ => isFalse (fun h => PyVal.noConfusion h)
  | .vInt _, .vFloat _ => isFalse (fun h => PyVal.noConfusion h)
  | .vInt _, .vList _ => isFalse (fun h => PyVal.noConfusion h)
  | .vFloat _, .vStr _ => isFalse (fun h => PyVal.noConfusion h)
  | .vFloat _, .vInt _ => isFalse (fun h => PyVal.noConfusion h)
  | .vFloat _, .vList _ => isFalse (fun h => PyVal.noConfusion h)
  | .vList _, .vStr _ => isFalse (fun h => PyVal.noConfusion h)
  | .vList _, .vInt _ => isFalse (fun h => PyVal.noConfusion h)
  | .vList _, .vFloat _ => isFalse (fun h => PyVal.noConfusion h)

def PyVal.deqList : (a b : List PyVal) → Decidable (a = b)
  | [], [] => isTrue rfl
  | [], _ :: _ => isFalse (fun h => List.noConfusion h)
  | _ :: _, [] => isFalse (fun h => List.noConfusion h)
  | x :: xs, y :: ys =>
    match PyVal.deq x y with
    | isFalse h => isFalse (fun hh => h (List.cons.injEq x xs y ys ▸ hh).1)
    | isTrue h1 =>
      match PyVal.deqList xs ys with
      | isTrue h2 => isTrue (by rw [h1, h2])
      | isFalse h => isFalse (fun hh => h (List.cons.injEq x xs y ys ▸ hh).2)

end

instance : DecidableEq PyVal := PyVal.deq

/-- Python `type(v)` at the granularity the scripts compare with `!=`. -/
inductive PyType where
  | tStr | tInt | tFloat | tList
deriving Repr, DecidableEq

def PyVal.pyType : PyVal → PyType
  | .vStr _ => .tStr
  | .vInt _ => .tInt
  | .vFloat _ => .tFloat
  | .vList _ => .tList

/-- `len(v)` for the values the scripts take lengths of: lists and
strings have a length, ints and floats raise `TypeError`. -/
def PyVal.pyLen : PyVal → Except String Nat
  | .vList l => .ok l.length
  | .vStr s => .ok s.length
  | .vInt _ => .error "TypeError: object of type int has no len()"
  | .vFloat _ => .error "TypeError: object of type float has no len()"

/-- A record: a Python dict from field name to value (assoc list,
keys unique in well-formed datasets). -/
abbrev Record := List (String × PyVal)

/-- `record[key]` lookup. -/
def recGet (r : Record) (k : String) : Option PyVal :=
  (r.find? (fun p => p.1 == k)).map (·.2)

/-- A loaded `datasets.Dataset`: a feature (column-name) schema and an
ordered list of records. -/
structure HFDataset where
  features : List String
  rows : List Record
deriving Repr, DecidableEq

/-- Python `int()` truncation toward zero, applied to the (exactly
modelled) product `total_size * percentage`. -/
def pyInt (q : ℚ) : Int := Int.tdiv q.num (q.den : Int)

/-- One step of a 64-bit linear congruential generator; the concrete
stream standing in for numpy PCG64 draws. -/
def lcg (x : Nat) : Nat :=
  (x * 6364136223846793005 + 1442695040888963407) % (2 ^ 64)

/-- Selection sampling: draw `k` elements without replacement from
`pool`, consuming one generator step per draw (Fisher–Yates on the
remaining pool). -/
def sampleAux : Nat → List Nat → Nat → List Nat
  | 0, _, _ => []
  | k + 1, pool, st =>
    match pool with
    | [] => []
    | p₀ :: ps =>
      let st2 := lcg st
      let x := (p₀ :: ps).getD (st2 % (p₀ :: ps).length) 0
      x :: sampleAux k ((p₀ :: ps).erase x) st2

/-- Modelled from the spec: the seeded, uniform, without-replacement
sampling primitive (`np.random.default_rng(seed).choice(total, size,
replace=False)`); numpy's internals are external to this repository, so
any deterministic sampler with the documented contract stands for it:
it is a pure function of `(seed, total, size)`, returns `size` distinct
indices in `[0, total)` when `0 ≤ size ≤ total`, and raises `ValueError`
when `size < 0` or `size > total`. -/
def sampleIndices (seed total size : Nat) : List Nat :=
  sampleAux size (List.range total) (lcg (seed + 1))

/-- Modelled from the spec: `rng.choice(total, size, replace=False)`. -/
def rng_choice (seed total : Nat) (size : Int) : Except String (List Nat) :=
  if size < 0 then
    .error "ValueError: negative dimensions are not allowed"
  else if (total : Int) < size then
    .error "ValueError: Cannot take a larger sample than population when replace=False"
  else
    .ok (sampleIndices seed total size.toNat)

/-- Python `sorted` on a list of ints: the ascending arrangement (on
`Nat`, insertion sort computes exactly it). -/
def pySorted (l : List Nat) : List Nat := List.insertionSort (· ≤ ·) l

/-- `dataset.select(indices)`: the rows at the given indices, in the
given order; raises if any index is out of range. -/
def selectRows (rows : List Record) : List Nat → Except String (List Record)
  | [] => .ok []
  | i :: is =>
    match rows.get? i with
    | none => .error "IndexError: index out of range"
    | some r =>
      match selectRows rows is with
      | .error e => .error e
      | .ok rs => .ok (r :: rs)

def dsSelect (ds : HFDataset) (indices : List Nat) : Except String HFDataset :=
  match selectRows ds.rows indices with
  | .error e => .error e
  | .ok rs => .ok ⟨ds.features, rs⟩

/-- The filesystem/dataset-store environment of the Creator:
`load_from_disk` by path (which may raise). -/
structure CreatorFS where
  load : String → Except String HFDataset

/-- Observable side effects of the Creator, in program order. -/
inductive CEffect where
  | load (path : String)
  | mkdir (path : String)
  | save (path : String) (ds : HFDataset)
deriving Repr, DecidableEq

/-- Successful outcome of `create_subset`: the sorted selected index
list and the subset dataset that was saved. -/
structure CreateOk where
  indices : List Nat
  subset : HFDataset
deriving Repr, DecidableEq

/-- Resolution of the target subset size (`create_dataset_subset.py`
lines 25–32): an absolute count is clamped to `min(requested, total)`,
after which the size-report print divides by `total_size`
(`subset_size/total_size*100`, line 27) and so raises
`ZeroDivisionError` on an empty dataset; a percentage gives
`int(total_size * subset_percentage)` with no division in its print;
neither raises `ValueError`. -/
def resolveSize (total_size : Nat) (subset_size : Option Int)
    (subset_percentage : Option ℚ) : Except String Int :=
  match subset_size, subset_percentage with
  | some s, _ =>
      if total_size = 0 then .error "ZeroDivisionError: division by zero"
      else .ok (min s (total_size : Int))
  | none, some p => .ok (pyInt ((total_size : ℚ) * p))
  | none, none =>
      .error "ValueError: Either subset_size or subset_percentage must be provided"

/-- `create_subset` (`create_dataset_subset.py` lines 7–52): load the
source dataset, resolve the subset size, draw that many unique indices
with the seeded generator, sort them ascending, select the rows, create
the output directory, save.  Returns the effect trace in program order
together with the outcome; an error aborts the trace at the raise
point. -/
def create_subset (fs : CreatorFS) (dataset_path output_path : String)
    (subset_size : Option Int := none) (subset_percentage : Option ℚ := none)
    (random_seed : Nat := 42) : List CEffect × Except String CreateOk :=
  match fs.load dataset_path with
  | .error e => ([.load dataset_path], .error e)
  | .ok dataset =>
    let total_size := dataset.rows.length
    match resolveSize total_size subset_size subset_percentage with
    | .error e => ([.load dataset_path], .error e)
    | .ok sz =>
      match rng_choice random_seed total_size sz with
      | .error e => ([.load dataset_path], .error e)
      | .ok drawn =>
        let random_indices := pySorted drawn
        match dsSelect dataset random_indices with
        | .error e => ([.load dataset_path], .error e)
        | .ok subset =>
            ([.load dataset_path, .mkdir output_path, .save output_path subset],
             .ok ⟨random_indices, subset⟩)

/-- The Creator CLI (`main`, lines 103–118): `--size`/`--percentage`
are validated as mutually exclusive and jointly required by the
argument parser before `create_subset` runs (so before any load). -/
def creatorMain (fs : CreatorFS) (input output : String)
    (size : Option Int) (percentage : Option ℚ) (seed : Nat) :
    List CEffect × Except String CreateOk :=
  match size, percentage with
  | none, none =>
      ([], .error "usage: Either --size or --percentage must be provided")
  | some _, some _ =>
      ([], .error "usage: Provide either --size OR --percentage, not both")
  | some s, none => create_subset fs input output (some s) none seed
  | none, some p => create_subset fs input output none (some p) seed

/-! ### Verifier (`verify_subset.py`) -/

/-- The filesystem/dataset-store environment of the Verifier:
`os.path.exists` and `load_from_disk` by path. -/
structure VerifyFS where
  pathExists : String → Bool
  load : String → Except String HFDataset

/-- How a list- or scalar-valued field is rendered by the sample
preview (`verify_subset.py` lines 130–140). -/
inductive FieldRender where
  | strListTrunc (first5 : List PyVal)
  | strListFull (full : List PyVal)
  | numList (len : Nat) (first5 : List PyVal)
  | otherList (len : Nat)
  | scalar (v : PyVal)
deriving Repr, DecidableEq

/-- One semantically relevant line of the Verifier's printed report,
in print order. -/
inductive Line where
  | errMissing (which path : String)
  | found (which path : String)
  | loaded (which : String) (n : Nat)
  | loadError (which msg : String)
  | sizeReport (original subset : Nat) (percentage : ℚ)
  | warnSubsetLarger
  | errEmptySubset
  | featuresMatch (names : List String)
  | warnFeaturesDiffer (original subset missing extra : List String)
  | sampleStructMatch
  | warnSampleStructDiffer
  | warnTypeMismatch (key : String)
  | warnEmptyList (key : String)
  | sampleDataValid
  | warnSampleCheckError (msg : String)
  | showSample (i : Nat)
  | showField (key : String) (r : FieldRender)
  | warnDisplayError (msg : String)
  | summary (subset original : Nat) (percentage : ℚ)
deriving Repr, DecidableEq

/-- Python `set(a) == set(b)` on field-name lists. -/
def eqAsSets (a b : List String) : Bool :=
  a.all (fun k => b.contains k) && b.all (fun k => a.contains k)

/-- The per-field loop of the sample-integrity check (`verify_subset.py`
lines 101–116): for each field of the original's record 0 that also
occurs in the subset's record 0, warn on differing Python types, then —
when the original value is a list — warn when the subset value is empty
while the original is non-empty (`len(sub_val)` raises on values that
have no length, aborting the loop with that exception). -/
def checkFields : List (String × PyVal) → Record → Bool →
    List Line × Except String Bool
  | [], _, allMatch => ([], .ok allMatch)
  | (key, origVal) :: rest, subSample, allMatch =>
    match recGet subSample key with
    | none => checkFields rest subSample allMatch
    | some subVal =>
      let typeLines : List Line :=
        if origVal.pyType ≠ subVal.pyType then [.warnTypeMismatch key] else []
      let am1 := if origVal.pyType ≠ subVal.pyType then false else allMatch
      match origVal with
      | .vList origList =>
        match subVal.pyLen with
        | .error e => (typeLines, .error e)
        | .ok subLen =>
          if subLen = 0 ∧ origList.length > 0 then
            let (ls, r) := checkFields rest subSample false
            (typeLines ++ [.warnEmptyList key] ++ ls, r)
          else
            let (ls, r) := checkFields rest subSample am1
            (typeLines ++ ls, r)
      | _ =>
        let (ls, r) := checkFields rest subSample am1
        (typeLines ++ ls, r)

/-- Step 6 of the Verifier (lines 88–121): compare record 0 of both
datasets inside a `try`; any exception is downgraded to a warning. -/
def sampleIntegrity (originalDs subsetDs : HFDataset) : List Line :=
  match originalDs.rows.get? 0 with
  | none => [.warnSampleCheckError "IndexError: index out of range"]
  | some originalSample =>
    match subsetDs.rows.get? 0 with
    | none => [.warnSampleCheckError "IndexError: index out of range"]
    | some subsetSample =>
      let structLine : Line :=
        if eqAsSets (originalSample.map (·.1)) (subsetSample.map (·.1)) then
          .sampleStructMatch
        else
          .warnSampleStructDiffer
      match checkFields originalSample subsetSample true with
      | (ls, .error e) => structLine :: ls ++ [.warnSampleCheckError e]
      | (ls, .ok am) => structLine :: ls ++ (if am then [.sampleDataValid] else [])

/-- Rendering of one field in the sample preview (lines 130–140):
list values branch on the type of `value[0]` — an `IndexError` on an
empty list — string lists print truncated at 5 elements, numeric lists
print length and head, other lists just the length; scalars print
directly. -/
def renderField (key : String) (v : PyVal) : Except String Line :=
  match v with
  | .vList l =>
    match l.get? 0 with
    | none => .error "IndexError: list index out of range"
    | some h =>
      match h with
      | .vStr _ =>
          .ok (.showField key
            (if l.length > 5 then .strListTrunc (l.take 5) else .strListFull l))
      | .vInt _ => .ok (.showField key (.numList l.length (l.take 5)))
      | .vFloat _ => .ok (.showField key (.numList l.length (l.take 5)))
      | .vList _ => .ok (.showField key (.otherList l.length))
  | _ => .ok (.showField key (.scalar v))

/-- Render all fields of one record, keeping the lines printed before a
raising field and surfacing its exception. -/
def previewFields : List (String × PyVal) → List Line × Option String
  | [] => ([], none)
  | (key, v) :: rest =>
    match renderField key v with
    | .error e => ([], some e)
    | .ok ln =>
      let (ls, r) := previewFields rest
      (ln :: ls, r)

/-- The preview loop over records `i, i+1, …` (`fuel` many); the
`Sample {i+1}:` header prints before the record is accessed, and the
first exception stops the loop. -/
def previewLoop (rows : List Record) (i : Nat) : Nat → List Line × Option String
  | 0 => ([], none)
  | fuel + 1 =>
    match rows.get? i with
    | none => ([.showSample i], some "IndexError: index out of range")
    | some sample =>
      let (fl, err) := previewFields sample
      match err with
      | some e => (Line.showSample i :: fl, some e)
      | none =>
        let (ls, r) := previewLoop rows (i + 1) fuel
        (Line.showSample i :: fl ++ ls, r)

/-- Step 7 of the Verifier (lines 124–142): display
`min(show_samples, len(subset_dataset))` records inside a `try`; any
exception is downgraded to a warning. -/
def previewAll (subsetDs : HFDataset) (show_samples : Int) : List Line :=
  let cnt := (min show_samples (subsetDs.rows.length : Int)).toNat
  match previewLoop subsetDs.rows 0 cnt with
  | (ls, some e) => ls ++ [.warnDisplayError e]
  | (ls, none) => ls

/-- `verify_subset` (`verify_subset.py` lines 7–153): existence checks,
loads, size comparison (with the percentage division guarded against an
empty original), feature-set comparison (warning only), sample
integrity (warnings only), sample preview (warnings only), summary.
Returns the boolean verdict and the report lines in print order. -/
def verify_subset (fs : VerifyFS) (original_path subset_path : String)
    (show_samples : Int := 3) : Bool × List Line :=
  if fs.pathExists original_path = false then
    (false, [.errMissing "original" original_path])
  else if fs.pathExists subset_path = false then
    (false, [.found "original" original_path, .errMissing "subset" subset_path])
  else
    let l2 : List Line :=
      [.found "original" original_path, .found "subset" subset_path]
    match fs.load original_path with
    | .error e => (false, l2 ++ [.loadError "original" e])
    | .ok original_dataset =>
      let l3 := l2 ++ [Line.loaded "original" original_dataset.rows.length]
      match fs.load subset_path with
      | .error e => (false, l3 ++ [.loadError "subset" e])
      | .ok subset_dataset =>
        let l4 := l3 ++ [Line.loaded "subset" subset_dataset.rows.length]
        let original_size := original_dataset.rows.length
        let subset_size := subset_dataset.rows.length
        let percentage : ℚ :=
          if original_size > 0 then
            ((subset_size : ℚ) / (original_size : ℚ)) * 100
          else 0
        let l5 := l4 ++ [Line.sizeReport original_size subset_size percentage]
        if subset_size > original_size then
          (false, l5 ++ [.warnSubsetLarger])
        else if subset_size = 0 then
          (false, l5 ++ [.errEmptySubset])
        else
          let original_features := original_dataset.features
          let subset_features := subset_dataset.features
          let featLines : List Line :=
            if eqAsSets original_features subset_features then
              [.featuresMatch original_features]
            else
              [.warnFeaturesDiffer original_features subset_features
                (original_features.filter (fun k => !subset_features.contains k))
                (subset_features.filter (fun k => !original_features.contains k))]
          let l6 := l5 ++ featLines
          let l7 := l6 ++ sampleIntegrity original_dataset subset_dataset
          let l8 := l7 ++
            (if show_samples > 0 then previewAll subset_dataset show_samples
             else [])
          (true, l8 ++ [.summary subset_size original_size percentage])

/-! ### Concrete fixtures used to instantiate the theorems -/

/-- A 10-record single-column dataset. -/
def demoDS10 : HFDataset :=
  ⟨["tgt"], (List.range 10).map (fun i => [("tgt", PyVal.vInt i)])⟩

/-- A Creator store serving `demoDS10` under the path `in`. -/
def demoCFS : CreatorFS :=
  ⟨fun p => if p = "in" then .ok demoDS10 else .error "FileNotFoundError"⟩

/-- A second Creator store, defined differently, agreeing with
`demoCFS` on the path `in`. -/
def demoCFS2 : CreatorFS := ⟨fun _ => .ok demoDS10⟩

/-- An original dataset with two columns for the Verifier fixtures. -/
def origDS : HFDataset :=
  ⟨["src", "tgt"],
   [[("src", PyVal.vStr "a"), ("tgt", PyVal.vList [PyVal.vInt 1, PyVal.vInt 2])],
    [("src", PyVal.vStr "b"), ("tgt", PyVal.vList [PyVal.vInt 3])]]⟩

/-- A subset dataset with an extra feature relative to `origDS`. -/
def subExtraDS : HFDataset :=
  ⟨["src", "tgt", "extra"],
   [[("src", PyVal.vStr "a"), ("tgt", PyVal.vList [PyVal.vInt 1, PyVal.vInt 2]),
     ("extra", PyVal.vInt 0)]]⟩

/-- A subset dataset whose single record has an empty list-valued
field. -/
def subEmptyListDS : HFDataset :=
  ⟨["src", "tgt"], [[("src", PyVal.vStr "a"), ("tgt", PyVal.vList [])]]⟩

/-- An empty original dataset. -/
def emptyDS : HFDataset := ⟨["src", "tgt"], []⟩

/-- A Creator store that always loads the empty dataset. -/
def emptyCFS : CreatorFS := ⟨fun _ => .ok emptyDS⟩

/-- A Verifier store: `orig` and `sub` exist; `orig` loads to `origDS`
and `sub` to `subExtraDS`. -/
def demoVFS : VerifyFS :=
  ⟨fun p => p = "orig" || p = "sub",
   fun p =>
     if p = "orig" then .ok origDS
     else if p = "sub" then .ok subExtraDS
     else .error "FileNotFoundError"⟩

/-- A Verifier store whose subset record has an empty list field. -/
def demoVFSEmptyList : VerifyFS :=
  ⟨fun p => p = "orig" || p = "sub",
   fun p =>
     if p = "orig" then .ok origDS
     else if p = "sub" then .ok subEmptyListDS
     else .error "FileNotFoundError"⟩

/-- A Verifier store whose original dataset has zero records. -/
def demoVFSEmptyOrig : VerifyFS :=
  ⟨fun p => p = "orig" || p = "sub",
   fun p =>
     if p = "orig" then .ok emptyDS
     else if p = "sub" then .ok subEmptyListDS
     else .error "FileNotFoundError"⟩

/-! ### Lemmas about the sampling and selection primitives -/

theorem sampleAux_spec : ∀ (k : Nat) (pool : List Nat) (st : Nat),
    k ≤ pool.length → pool.Nodup →
    (sampleAux k pool st).length = k ∧ (sampleAux k pool st).Nodup ∧
      ∀ x ∈ sampleAux k pool st, x ∈ pool := by
  intro k
  induction k with
  | zero => intro pool st _ _; simp [sampleAux]
  | succ k ih =>
    intro pool st h hnd
    match pool, h with
    | p₀ :: ps, h =>
      have hlen : 0 < (p₀ :: ps).length := by simp
      have hidx : lcg st % (p₀ :: ps).length < (p₀ :: ps).length :=
        Nat.mod_lt _ hlen
      have hx : (p₀ :: ps).getD (lcg st % (p₀ :: ps).length) 0 ∈ p₀ :: ps := by
        rw [List.getD_eq_getElem _ _ hidx]
        exact List.getElem_mem hidx
      set x := (p₀ :: ps).getD (lcg st % (p₀ :: ps).length) 0 with hxdef
      have herlen : ((p₀ :: ps).erase x).length = (p₀ :: ps).length - 1 :=
        List.length_erase_of_mem hx
      have hk : k ≤ ((p₀ :: ps).erase x).length := by
        rw [herlen]; simp only [List.length_cons] at h ⊢; omega
      have hernd : ((p₀ :: ps).erase x).Nodup := hnd.erase x
      obtain ⟨ih1, ih2, ih3⟩ := ih ((p₀ :: ps).erase x) (lcg st) hk hernd
      have hmain : sampleAux (k + 1) (p₀ :: ps) st =
          x :: sampleAux k ((p₀ :: ps).erase x) (lcg st) := by
        simp only [sampleAux]
      rw [hmain]
      refine ⟨by simp [ih1], ?_, ?_⟩
      · refine List.nodup_cons.mpr ⟨?_, ih2⟩
        intro hmem
        have : x ∈ (p₀ :: ps).erase x := ih3 x hmem
        exact absurd ((hnd.mem_erase_iff).mp this).1 (by simp)
      · intro y hy
        rcases List.mem_cons.mp hy with hy | hy
        · rw [hy]; exact hx
        · exact List.erase_subset x (p₀ :: ps) (ih3 y hy)

theorem sampleIndices_spec (seed total size : Nat) (h : size ≤ total) :
    (sampleIndices seed total size).length = size ∧
    (sampleIndices seed total size).Nodup ∧
    ∀ x ∈ sampleIndices seed total size, x < total := by
  obtain ⟨h1, h2, h3⟩ :=
    sampleAux_spec size (List.range total) (lcg (seed + 1))
      (by simpa using h) (List.nodup_range total)
  exact ⟨h1, h2, fun x hx => List.mem_range.mp (h3 x hx)⟩

theorem selectRows_ok (rows : List Record) :
    ∀ (idxs : List Nat), (∀ i ∈ idxs, i < rows.length) →
    ∃ rs, selectRows rows idxs = .ok rs ∧ rs.length = idxs.length ∧
      ∀ r ∈ rs, r ∈ rows := by
  intro idxs
  induction idxs with
  | nil => intro _; exact ⟨[], rfl, rfl, by simp⟩
  | cons i is ih =>
    intro hall
    have hi : i < rows.length := hall i (by simp)
    obtain ⟨rs, hsel, hlen, hmem⟩ := ih (fun j hj => hall j (by simp [hj]))
    refine ⟨rows[i] :: rs, ?_, by simp [hlen], ?_⟩
    · simp only [selectRows]
      rw [List.get?_eq_getElem?, List.getElem?_eq_getElem hi, hsel]
    · intro r hr
      rcases List.mem_cons.mp hr with hr | hr
      · rw [hr]; exact List.getElem_mem hi
      · exact hmem r hr

theorem pySorted_spec (l : List Nat) :
    (pySorted l).Perm l ∧ (pySorted l).Sorted (· ≤ ·) := by
  exact ⟨List.perm_insertionSort _ l, List.sorted_insertionSort _ l⟩

theorem pyInt_eq_floor (q : ℚ) (h : 0 ≤ q) : pyInt q = ⌊q⌋ := by
  unfold pyInt
  rw [Rat.floor_def]
  exact Int.tdiv_eq_ediv (Rat.num_nonneg.mpr h) (by positivity)

theorem selectRows_drop (rows : List Record) :
    ∀ (s : List Record) (i : Nat), rows.drop i = s →
      selectRows rows (List.range' i s.length) = .ok s := by
  intro s
  induction s with
  | nil => intro i _; simp [selectRows]
  | cons r s' ih =>
    intro i hdrop
    have hget : rows.get? i = some r := by
      have h0 : (rows.drop i).get? 0 = some r := by rw [hdrop]; rfl
      rwa [List.get?_drop, Nat.add_zero] at h0
    have hdrop' : rows.drop (i + 1) = s' := by
      rw [← List.tail_drop, hdrop, List.tail_cons]
    have := ih (i + 1) hdrop'
    simp only [List.length_cons, List.range'_succ, selectRows, hget, this]

theorem selectRows_range (rows : List Record) :
    selectRows rows (List.range rows.length) = .ok rows := by
  have := selectRows_drop rows rows 0 (by simp)
  rwa [← List.range_eq_range'] at this

theorem create_subset_ok (fs : CreatorFS) (ip op : String)
    (size? : Option Int) (pct? : Option ℚ) (seed : Nat) (ds : HFDataset) (k : Int)
    (hload : fs.load ip = .ok ds)
    (hres : resolveSize ds.rows.length size? pct? = .ok k)
    (h0 : 0 ≤ k) (hle : k ≤ (ds.rows.length : Int)) :
    ∃ rs : List Record,
      create_subset fs ip op size? pct? seed =
        ([.load ip, .mkdir op, .save op ⟨ds.features, rs⟩],
         .ok ⟨pySorted (sampleIndices seed ds.rows.length k.toNat),
              ⟨ds.features, rs⟩⟩) ∧
      rs.length = k.toNat ∧ (∀ r ∈ rs, r ∈ ds.rows) := by
  have hch : rng_choice seed ds.rows.length k =
      .ok (sampleIndices seed ds.rows.length k.toNat) := by
    unfold rng_choice
    rw [if_neg (by omega), if_neg (by omega)]
  have hkle : k.toNat ≤ ds.rows.length := by omega
  obtain ⟨hlen, hnd, hlt⟩ := sampleIndices_spec seed ds.rows.length k.toNat hkle
  obtain ⟨hperm, hsort⟩ := pySorted_spec (sampleIndices seed ds.rows.length k.toNat)
  have hltS : ∀ i ∈ pySorted (sampleIndices seed ds.rows.length k.toNat),
      i < ds.rows.length := fun i hi => hlt i (hperm.mem_iff.mp hi)
  obtain ⟨rs, hsel, hrslen, hrsmem⟩ :=
    selectRows_ok ds.rows (pySorted (sampleIndices seed ds.rows.length k.toNat)) hltS
  refine ⟨rs, ?_, ?_, hrsmem⟩
  · simp only [create_subset, hload, hres, hch, dsSelect, hsel]
  · rw [hrslen, hperm.length_eq, hlen]

/-- C1: for every loaded source dataset and every resolved subset size
`k` with `0 < k ≤ total`, `create_subset` succeeds and produces a
subset of exactly `k` records, each of which is a record of the
original dataset, selected at duplicate-free indices that all lie in
`[0, total)` and are arranged in non-decreasing original-index
(ascending sorted) order, with the subset containing one record per
selected index. -/
theorem create_subset_valid_subset (fs : CreatorFS) (ip op : String)
    (size? : Option Int) (pct? : Option ℚ) (seed : Nat) (ds : HFDataset) (k : Int)
    (hload : fs.load ip = .ok ds)
    (hres : resolveSize ds.rows.length size? pct? = .ok k)
    (hpos : 0 < k) (hle : k ≤ (ds.rows.length : Int)) :
    ∃ out : CreateOk,
      (create_subset fs ip op size? pct? seed).2 = .ok out ∧
      out.subset.rows.length = k.toNat ∧
      (∀ row ∈ out.subset.rows, row ∈ ds.rows) ∧
      out.indices.Nodup ∧
      (∀ i ∈ out.indices, i < ds.rows.length) ∧
      out.indices.Sorted (· ≤ ·) ∧
      out.indices.length = k.toNat := by
  obtain ⟨rs, heq, hlen, hmem⟩ :=
    create_subset_ok fs ip op size? pct? seed ds k hload hres (le_of_lt hpos) hle
  obtain ⟨hl, hnd, hlt⟩ :=
    sampleIndices_spec seed ds.rows.length k.toNat (by omega)
  obtain ⟨hperm, hsort⟩ := pySorted_spec (sampleIndices seed ds.rows.length k.toNat)
  refine ⟨⟨pySorted (sampleIndices seed ds.rows.length k.toNat), ⟨ds.features, rs⟩⟩,
    by rw [heq], hlen, hmem, hperm.nodup_iff.mpr hnd,
    fun i hi => hlt i (hperm.mem_iff.mp hi), hsort, hperm.length_eq.trans hl⟩

theorem create_subset_valid_subset_witness :
    ∃ out : CreateOk,
      (create_subset demoCFS "in" "out" (some 3) none 42).2 = .ok out ∧
      out.subset.rows.length = (3 : Int).toNat ∧
      (∀ row ∈ out.subset.rows, row ∈ demoDS10.rows) ∧
      out.indices.Nodup ∧
      (∀ i ∈ out.indices, i < demoDS10.rows.length) ∧
      out.indices.Sorted (· ≤ ·) ∧
      out.indices.length = (3 : Int).toNat :=
  create_subset_valid_subset demoCFS "in" "out" (some 3) none 42 demoDS10 3
    rfl rfl (by decide) (by decide)

theorem sampleIndices_full (seed total : Nat) :
    pySorted (sampleIndices seed total total) = List.range total := by
  obtain ⟨hl, hnd, hlt⟩ := sampleIndices_spec seed total total (le_refl total)
  obtain ⟨hperm, hsort⟩ := pySorted_spec (sampleIndices seed total total)
  have hsub : sampleIndices seed total total ⊆ List.range total :=
    fun x hx => List.mem_range.mpr (hlt x hx)
  have hp2 : (sampleIndices seed total total).Perm (List.range total) :=
    (List.subperm_of_subset hnd hsub).perm_of_length_le (by simp [hl])
  exact List.eq_of_perm_of_sorted (hperm.trans hp2) hsort
    ((List.pairwise_lt_range total).imp le_of_lt)

/-- C5: an absolute requested count at least the total record count is
clamped to the total and, provided the source dataset is non-empty,
`create_subset` completes without error and the saved subset equals the
full source dataset.  (On an empty source the absolute-count path
instead raises `ZeroDivisionError` at the size-report print — see the
counterexample below.) -/
theorem create_subset_clamps_to_full (fs : CreatorFS) (ip op : String)
    (seed : Nat) (ds : HFDataset) (s : Int)
    (hload : fs.load ip = .ok ds) (hpos : 0 < ds.rows.length)
    (hs : (ds.rows.length : Int) ≤ s) :
    create_subset fs ip op (some s) none seed =
      ([.load ip, .mkdir op, .save op ds],
       .ok ⟨List.range ds.rows.length, ds⟩) := by
  have hres : resolveSize ds.rows.length (some s) none = .ok (ds.rows.length : Int) := by
    simp only [resolveSize, if_neg (by omega : ¬ ds.rows.length = 0),
      min_eq_right hs]
  have hch : rng_choice seed ds.rows.length (ds.rows.length : Int) =
      .ok (sampleIndices seed ds.rows.length ds.rows.length) := by
    unfold rng_choice
    rw [if_neg (by omega), if_neg (by omega), Int.toNat_natCast]
  simp only [create_subset, hload, hres, hch, sampleIndices_full, dsSelect,
    selectRows_range]

theorem create_subset_clamps_to_full_witness :
    create_subset demoCFS "in" "out" (some 1000000) none 42 =
      ([.load "in", .mkdir "out", .save "out" demoDS10],
       .ok ⟨List.range demoDS10.rows.length, demoDS10⟩) :=
  create_subset_clamps_to_full demoCFS "in" "out" 42 demoDS10 1000000
    rfl (by decide) (by decide)

/-- Counterexample to the unamended claim: on an empty source dataset,
a requested count (1) larger than the total (0) does not complete
without error — the absolute-count path raises `ZeroDivisionError` at
the size-report print, the effect trace stops at the load (no `mkdir`,
no `save`), and no subset equal to the full dataset is produced. -/
theorem create_subset_clamps_to_full_counterexample :
    (emptyDS.rows.length : Int) ≤ 1 ∧
    create_subset emptyCFS "in" "out" (some 1) none 42 =
      ([CEffect.load "in"], .error "ZeroDivisionError: division by zero") ∧
    (create_subset emptyCFS "in" "out" (some 1) none 42).2 ≠
      .ok ⟨List.range emptyDS.rows.length, emptyDS⟩ := by
  refine ⟨by decide, rfl, ?_⟩
  intro h
  rw [show (create_subset emptyCFS "in" "out" (some 1) none 42).2 =
    .error "ZeroDivisionError: division by zero" from rfl] at h
  exact Except.noConfusion h

/-- C6: `create_subset` is deterministic — two runs whose stores load
the same dataset at the input path, with the same size-or-percentage
selection and seed, return identical effect traces (hence identical
saved subsets) and identical outcomes. -/
theorem create_subset_deterministic (fs1 fs2 : CreatorFS) (ip op : String)
    (size? : Option Int) (pct? : Option ℚ) (seed : Nat)
    (h : fs1.load ip = fs2.load ip) :
    create_subset fs1 ip op size? pct? seed =
      create_subset fs2 ip op size? pct? seed := by
  unfold create_subset
  rw [h]

theorem create_subset_deterministic_witness :
    create_subset demoCFS "in" "out" (some 3) none 42 =
      create_subset demoCFS2 "in" "out" (some 3) none 42 :=
  create_subset_deterministic demoCFS demoCFS2 "in" "out" (some 3) none 42 rfl

/-- C4: with a percentage `P` (and no absolute count), the subset size
resolves to `floor(total * P)`; under `0 ≤ P` with the resolved size at
most the total, `create_subset` succeeds and the output has exactly
`floor(total * P)` records. -/
theorem create_subset_percentage_floor (fs : CreatorFS) (ip op : String)
    (seed : Nat) (ds : HFDataset) (P : ℚ)
    (hload : fs.load ip = .ok ds) (hP : 0 ≤ P)
    (hle : ⌊(ds.rows.length : ℚ) * P⌋ ≤ (ds.rows.length : Int)) :
    resolveSize ds.rows.length none (some P) = .ok ⌊(ds.rows.length : ℚ) * P⌋ ∧
    ∃ out : CreateOk,
      (create_subset fs ip op none (some P) seed).2 = .ok out ∧
      out.subset.rows.length = (⌊(ds.rows.length : ℚ) * P⌋).toNat := by
  have hfl : pyInt ((ds.rows.length : ℚ) * P) = ⌊(ds.rows.length : ℚ) * P⌋ :=
    pyInt_eq_floor _ (by positivity)
  have hres : resolveSize ds.rows.length none (some P) =
      .ok ⌊(ds.rows.length : ℚ) * P⌋ := by
    simp only [resolveSize, hfl]
  refine ⟨hres, ?_⟩
  have h0 : (0 : Int) ≤ ⌊(ds.rows.length : ℚ) * P⌋ :=
    Int.floor_nonneg.mpr (by positivity)
  obtain ⟨rs, heq, hlen, -⟩ :=
    create_subset_ok fs ip op none (some P) seed ds _ hload hres h0 hle
  exact ⟨⟨pySorted (sampleIndices seed ds.rows.length
      (⌊(ds.rows.length : ℚ) * P⌋).toNat), ⟨ds.features, rs⟩⟩, by rw [heq], hlen⟩

theorem create_subset_percentage_floor_witness :
    ((⌊(demoDS10.rows.length : ℚ) * ((1 : ℚ) / 2)⌋).toNat = 5) ∧
    (resolveSize demoDS10.rows.length none (some ((1 : ℚ) / 2)) =
        .ok ⌊(demoDS10.rows.length : ℚ) * ((1 : ℚ) / 2)⌋ ∧
      ∃ out : CreateOk,
        (create_subset demoCFS "in" "out" none (some ((1 : ℚ) / 2)) 42).2 =
          .ok out ∧
        out.subset.rows.length =
          (⌊(demoDS10.rows.length : ℚ) * ((1 : ℚ) / 2)⌋).toNat) :=
  ⟨by norm_num [show demoDS10.rows.length = 10 from rfl]; omega,
   create_subset_percentage_floor demoCFS "in" "out" 42 demoDS10 ((1 : ℚ) / 2)
     rfl (by norm_num) (by norm_num [show demoDS10.rows.length = 10 from rfl])⟩

/-- C10: on the percentage path there is no clamp: whenever the
resolved size `int(total * P)` exceeds the total, the index draw's
without-replacement precondition is violated, `create_subset` raises
the sampler's `ValueError`, and no output directory is created (no
`mkdir` and no `save` effect is emitted). -/
theorem create_subset_percentage_unclamped (fs : CreatorFS) (ip op : String)
    (seed : Nat) (ds : HFDataset) (P : ℚ)
    (hload : fs.load ip = .ok ds)
    (hgt : (ds.rows.length : Int) < pyInt ((ds.rows.length : ℚ) * P)) :
    create_subset fs ip op none (some P) seed =
      ([.load ip],
       .error "ValueError: Cannot take a larger sample than population when replace=False") ∧
    (∀ p, CEffect.mkdir p ∉ (create_subset fs ip op none (some P) seed).1) ∧
    (∀ p d, CEffect.save p d ∉ (create_subset fs ip op none (some P) seed).1) := by
  have hch : rng_choice seed ds.rows.length (pyInt ((ds.rows.length : ℚ) * P)) =
      .error "ValueError: Cannot take a larger sample than population when replace=False" := by
    unfold rng_choice
    rw [if_neg (by omega), if_pos hgt]
  have heq : create_subset fs ip op none (some P) seed =
      ([.load ip],
       .error "ValueError: Cannot take a larger sample than population when replace=False") := by
    simp only [create_subset, hload, resolveSize, hch]
  refine ⟨heq, ?_, ?_⟩ <;> (intros; rw [heq]; simp)

theorem create_subset_percentage_unclamped_witness :
    create_subset demoCFS "in" "out" none (some ((3 : ℚ) / 2)) 42 =
      ([.load "in"],
       .error "ValueError: Cannot take a larger sample than population when replace=False") ∧
    (∀ p, CEffect.mkdir p ∉
      (create_subset demoCFS "in" "out" none (some ((3 : ℚ) / 2)) 42).1) ∧
    (∀ p d, CEffect.save p d ∉
      (create_subset demoCFS "in" "out" none (some ((3 : ℚ) / 2)) 42).1) :=
  create_subset_percentage_unclamped demoCFS "in" "out" 42 demoDS10 ((3 : ℚ) / 2)
    rfl (by
      rw [show demoDS10.rows.length = 10 from rfl,
        pyInt_eq_floor _ (by norm_num)]
      norm_num)

/-- C3: the Creator CLI rejects a run with neither `--size` nor
`--percentage` and a run with both (they are mutually exclusive); in
each case it exits with a usage error and an empty effect trace — so
nothing is loaded and no output directory is created. -/
theorem creatorMain_requires_exactly_one (fs : CreatorFS) (i o : String)
    (seed : Nat) :
    creatorMain fs i o none none seed =
      ([], .error "usage: Either --size or --percentage must be provided") ∧
    ∀ (s : Int) (p : ℚ),
      creatorMain fs i o (some s) (some p) seed =
        ([], .error "usage: Provide either --size OR --percentage, not both") :=
  ⟨rfl, fun _ _ => rfl⟩

/-- C2: `verify_subset` returns `true` exactly when no immediate-fail
condition occurs — both paths exist, both datasets load, the subset is
no larger than the original and is non-empty; and each fail condition
returns `false` at once, the report stopping at that condition (no
later check is run). -/
theorem verify_subset_pass_iff (fs : VerifyFS) (op sp : String) (n : Int) :
    ((verify_subset fs op sp n).1 = true ↔
      fs.pathExists op = true ∧ fs.pathExists sp = true ∧
      ∃ od sd, fs.load op = .ok od ∧ fs.load sp = .ok sd ∧
        sd.rows.length ≤ od.rows.length ∧ 0 < sd.rows.length) ∧
    (fs.pathExists op = false →
      (verify_subset fs op sp n).2 = [.errMissing "original" op]) ∧
    (fs.pathExists op = true → fs.pathExists sp = false →
      (verify_subset fs op sp n).2 =
        [.found "original" op, .errMissing "subset" sp]) ∧
    (∀ e, fs.pathExists op = true → fs.pathExists sp = true →
      fs.load op = .error e →
      (verify_subset fs op sp n).2 =
        [.found "original" op, .found "subset" sp, .loadError "original" e]) ∧
    (∀ od e, fs.pathExists op = true → fs.pathExists sp = true →
      fs.load op = .ok od → fs.load sp = .error e →
      (verify_subset fs op sp n).2 =
        [.found "original" op, .found "subset" sp,
         .loaded "original" od.rows.length, .loadError "subset" e]) ∧
    (∀ od sd, fs.pathExists op = true → fs.pathExists sp = true →
      fs.load op = .ok od → fs.load sp = .ok sd →
      od.rows.length < sd.rows.length →
      (verify_subset fs op sp n).2 =
        [.found "original" op, .found "subset" sp,
         .loaded "original" od.rows.length, .loaded "subset" sd.rows.length,
         .sizeReport od.rows.length sd.rows.length
           (if od.rows.length > 0 then
              ((sd.rows.length : ℚ) / (od.rows.length : ℚ)) * 100
            else 0),
         .warnSubsetLarger]) ∧
    (∀ od sd, fs.pathExists op = true → fs.pathExists sp = true →
      fs.load op = .ok od → fs.load sp = .ok sd →
      sd.rows.length = 0 →
      (verify_subset fs op sp n).2 =
        [.found "original" op, .found "subset" sp,
         .loaded "original" od.rows.length, .loaded "subset" sd.rows.length,
         .sizeReport od.rows.length sd.rows.length
           (if od.rows.length > 0 then
              ((sd.rows.length : ℚ) / (od.rows.length : ℚ)) * 100
            else 0),
         .errEmptySubset]) := by
  refine ⟨?_, ?_, ?_, ?_, ?_, ?_, ?_⟩
  · cases hop : fs.pathExists op with
    | false => simp [verify_subset, hop]
    | true =>
      cases hsp : fs.pathExists sp with
      | false => simp [verify_subset, hop, hsp]
      | true =>
        cases hlo : fs.load op with
        | error e => simp [verify_subset, hop, hsp, hlo]
        | ok od =>
          cases hls : fs.load sp with
          | error e => simp [verify_subset, hop, hsp, hlo, hls]
          | ok sd =>
            by_cases hgt : sd.rows.length > od.rows.length
            · simp only [verify_subset, hop, hsp, hlo, hls, if_pos hgt]
              simp
              exact fun h => absurd h (by omega)
            · by_cases hz : sd.rows.length = 0
              · simp only [verify_subset, hop, hsp, hlo, hls, if_neg hgt, if_pos hz]
                simp
                exact fun _ => List.length_eq_zero.mp hz
              · simp only [verify_subset, hop, hsp, hlo, hls, if_neg hgt, if_neg hz]
                simp
                exact ⟨by omega, by omega⟩
  · intro hop; simp [verify_subset, hop]
  · intro hop hsp; simp [verify_subset, hop, hsp]
  · intro e hop hsp hlo; simp [verify_subset, hop, hsp, hlo]
  · intro od e hop hsp hlo hls; simp [verify_subset, hop, hsp, hlo, hls]
  · intro od sd hop hsp hlo hls hgt
    simp only [verify_subset, hop, hsp, hlo, hls, if_pos hgt]
    simp [hgt]
  · intro od sd hop hsp hlo hls hz
    have hgt : ¬ (sd.rows.length > od.rows.length) := by omega
    simp only [verify_subset, hop, hsp, hlo, hls, if_neg hgt, if_pos hz]
    simp [hz]

/-- C7: a feature-set mismatch between original and subset is reported
as a warning listing the missing and extra field names, and never
changes the verdict: when both paths exist, both datasets load and
`0 < subset size ≤ original size`, the Verifier returns `true` even
though the feature sets differ. -/
theorem verify_subset_feature_mismatch_warns (fs : VerifyFS) (op sp : String)
    (n : Int) (od sd : HFDataset)
    (hop : fs.pathExists op = true) (hsp : fs.pathExists sp = true)
    (hlo : fs.load op = .ok od) (hls : fs.load sp = .ok sd)
    (hle : sd.rows.length ≤ od.rows.length) (hpos : 0 < sd.rows.length)
    (hdiff : eqAsSets od.features sd.features = false) :
    (verify_subset fs op sp n).1 = true ∧
    Line.warnFeaturesDiffer od.features sd.features
        (od.features.filter (fun k => !sd.features.contains k))
        (sd.features.filter (fun k => !od.features.contains k)) ∈
      (verify_subset fs op sp n).2 := by
  have hgt : ¬ sd.rows.length > od.rows.length := by omega
  have hz : ¬ sd.rows.length = 0 := by omega
  have hz2 : ¬ sd.rows = [] := fun h => hz (by simp [h])
  refine ⟨?_, ?_⟩ <;>
    simp [verify_subset, hop, hsp, hlo, hls, if_neg hgt, if_neg hz, hz2, hdiff]

theorem verify_subset_feature_mismatch_warns_witness :
    (verify_subset demoVFS "orig" "sub" 3).1 = true ∧
    Line.warnFeaturesDiffer origDS.features subExtraDS.features
        (origDS.features.filter (fun k => !subExtraDS.features.contains k))
        (subExtraDS.features.filter (fun k => !origDS.features.contains k)) ∈
      (verify_subset demoVFS "orig" "sub" 3).2 :=
  verify_subset_feature_mismatch_warns demoVFS "orig" "sub" 3 origDS subExtraDS
    rfl rfl rfl rfl (by decide) (by decide) rfl

theorem previewFields_err (r : Record) (k : String)
    (hmem : (k, PyVal.vList []) ∈ r) :
    ∃ e, (previewFields r).2 = some e := by
  induction r with
  | nil => cases hmem
  | cons p rest ih =>
    match p, hmem with
    | (k', v'), hmem =>
      rcases List.mem_cons.mp hmem with hhd | htl
      · have hv : v' = PyVal.vList [] := by
          injection hhd with h1 h2
          exact h2.symm
        refine ⟨"IndexError: list index out of range", ?_⟩
        simp [previewFields, hv, renderField]
      · obtain ⟨e, he⟩ := ih htl
        cases hr : renderField k' v' with
        | error e2 => exact ⟨e2, by simp [previewFields, hr]⟩
        | ok ln => exact ⟨e, by simp [previewFields, hr, he]⟩

theorem previewAll_err (sd : HFDataset) (n : Int) (hn : 0 < n)
    (r0 : Record) (hget : sd.rows.get? 0 = some r0)
    (k : String) (hmem : (k, PyVal.vList []) ∈ r0) :
    ∃ e ls, previewAll sd n = ls ++ [Line.warnDisplayError e] := by
  have hlen : 0 < sd.rows.length := by
    cases hrows : sd.rows with
    | nil => rw [hrows] at hget; cases hget
    | cons a l => simp [hrows]
  have hcnt : ∃ c, (min n (sd.rows.length : Int)).toNat = c + 1 := by
    refine ⟨(min n (sd.rows.length : Int)).toNat - 1, ?_⟩
    omega
  obtain ⟨c, hc⟩ := hcnt
  obtain ⟨e, he⟩ := previewFields_err r0 k hmem
  rcases hpf : previewFields r0 with ⟨fl, err⟩
  rw [hpf] at he
  simp only at he
  subst he
  have hget2 : sd.rows[0]? = some r0 := by rwa [List.get?_eq_getElem?] at hget
  refine ⟨e, Line.showSample 0 :: fl, ?_⟩
  simp [previewAll, hc, previewLoop, hget2, hpf]

/-- C8: exceptions inside the sample-integrity and sample-preview
steps are caught and downgraded to warnings and never change the
verdict — under the pass conditions the verdict is `true` whatever the
record contents are; in particular, previewing a record that contains
an empty list-valued field raises on the `value[0]` access and the
exception is reported as a display warning while the run still
passes. -/
theorem verify_subset_caught_exceptions (fs : VerifyFS) (op sp : String)
    (n : Int) (od sd : HFDataset) (r0 : Record) (k : String)
    (hop : fs.pathExists op = true) (hsp : fs.pathExists sp = true)
    (hlo : fs.load op = .ok od) (hls : fs.load sp = .ok sd)
    (hle : sd.rows.length ≤ od.rows.length) (hpos : 0 < sd.rows.length)
    (hn : 0 < n) (hget : sd.rows.get? 0 = some r0)
    (hmem : (k, PyVal.vList []) ∈ r0) :
    (verify_subset fs op sp n).1 = true ∧
    ∃ msg, Line.warnDisplayError msg ∈ (verify_subset fs op sp n).2 := by
  have hgt : ¬ sd.rows.length > od.rows.length := by omega
  have hz : ¬ sd.rows.length = 0 := by omega
  have hz2 : ¬ sd.rows = [] := fun h => hz (by simp [h])
  obtain ⟨e, ls, hprev⟩ := previewAll_err sd n hn r0 hget k hmem
  refine ⟨?_, ⟨e, ?_⟩⟩ <;>
    simp [verify_subset, hop, hsp, hlo, hls, if_neg hgt, if_neg hz, hz2, hn,
      hprev]

theorem verify_subset_caught_exceptions_witness :
    (verify_subset demoVFSEmptyList "orig" "sub" 3).1 = true ∧
    ∃ msg, Line.warnDisplayError msg ∈
      (verify_subset demoVFSEmptyList "orig" "sub" 3).2 :=
  verify_subset_caught_exceptions demoVFSEmptyList "orig" "sub" 3
    origDS subEmptyListDS
    [("src", PyVal.vStr "a"), ("tgt", PyVal.vList [])] "tgt"
    rfl rfl rfl rfl (by decide) (by decide) (by decide) rfl (by decide)

/-- C9: when the original dataset loads with 0 records the Verifier
always returns `false` (the subset is either larger than the original
or itself empty), and the size report computes the percentage as `0`
through the explicit zero-guard instead of dividing by zero. -/
theorem verify_subset_empty_original (fs : VerifyFS) (op sp : String)
    (n : Int) (od : HFDataset)
    (hlo : fs.load op = .ok od) (hod : od.rows.length = 0) :
    (verify_subset fs op sp n).1 = false ∧
    (∀ sd, fs.pathExists op = true → fs.pathExists sp = true →
      fs.load sp = .ok sd →
      Line.sizeReport 0 sd.rows.length 0 ∈ (verify_subset fs op sp n).2) := by
  constructor
  · cases hop : fs.pathExists op with
    | false => simp [verify_subset, hop]
    | true =>
      cases hsp : fs.pathExists sp with
      | false => simp [verify_subset, hop, hsp]
      | true =>
        cases hls : fs.load sp with
        | error e => simp [verify_subset, hop, hsp, hlo, hls]
        | ok sd =>
          by_cases hz : sd.rows.length = 0
          · have hgt : ¬ sd.rows.length > od.rows.length := by omega
            simp [verify_subset, hop, hsp, hlo, hls, if_neg hgt, hz]
          · have hgt : sd.rows.length > od.rows.length := by omega
            simp [verify_subset, hop, hsp, hlo, hls, if_pos hgt]
  · intro sd hop hsp hls
    by_cases hz : sd.rows.length = 0
    · have hgt : ¬ sd.rows.length > od.rows.length := by omega
      simp [verify_subset, hop, hsp, hlo, hls, if_neg hgt, hz, hod]
    · have hgt : sd.rows.length > od.rows.length := by omega
      simp [verify_subset, hop, hsp, hlo, hls, if_pos hgt, hod,
        Nat.pos_of_ne_zero hz]

theorem verify_subset_empty_original_witness :
    (verify_subset demoVFSEmptyOrig "orig" "sub" 3).1 = false ∧
    (∀ sd, demoVFSEmptyOrig.pathExists "orig" = true →
      demoVFSEmptyOrig.pathExists "sub" = true →
      demoVFSEmptyOrig.load "sub" = .ok sd →
      Line.sizeReport 0 sd.rows.length 0 ∈
        (verify_subset demoVFSEmptyOrig "orig" "sub" 3).2) :=
  verify_subset_empty_original demoVFSEmptyOrig "orig" "sub" 3 emptyDS rfl rfl
